import Mathlib

/-
Verification of the treasury risk calculation engine
(src/src/lib/fx-calculations.ts).

JavaScript numbers are modelled as exact real numbers (ℝ); this is the
idealised reading used throughout, except where a claim hinges on the
IEEE special values NaN and Infinity produced by division by zero or by
Math.sqrt of a negative argument.  For those places a small explicit
model `JSNum` of the JavaScript special-value arithmetic is given and
the affected functions are additionally embedded against it.
-/

/-- Direction of an FX trade: the `direction` field of the `FXTrade`
interface ("long" or "short"). -/
inductive FXDirection where
  | long : FXDirection
  | short : FXDirection
deriving DecidableEq

/-- The `FXTrade` interface.  `tradeDate` and `maturityDate` are the
numeric timestamps (milliseconds) held by the JavaScript `Date` objects. -/
structure FXTrade where
  id : String
  notionalUSD : ℝ
  tradeDate : ℝ
  maturityDate : ℝ
  direction : FXDirection

/-- The `RiskScenario` interface. -/
structure RiskScenario where
  currentFXRate : ℝ
  shockedFXRate : ℝ
  interestRateShock : ℝ
  volatility : ℝ

/-- The `RiskMetrics` interface. -/
structure RiskMetrics where
  totalExposureUSD : ℝ
  totalPnL : ℝ
  unhedgedPnL : ℝ
  hedgedPnL : ℝ
  optimalHedgeRatio : ℝ
  hedgeCost : ℝ
  valueAtRisk : ℝ

/-- `calculateShockedFXRate(currentRate, interestRateShockBps, timeToMaturity)`:
`currentRate * (1 + (interestRateShockBps / 10000) * timeToMaturity)`. -/
noncomputable def calculateShockedFXRate (currentRate interestRateShockBps timeToMaturity : ℝ) : ℝ :=
  currentRate * (1 + interestRateShockBps / 10000 * timeToMaturity)

/-- `calculateUnhedgedPnL(trades, currentRate, shockedRate)`: a `reduce`
over the trades, starting from 0, adding `notionalUSD * rateDelta` for a
long trade and `-notionalUSD * rateDelta` for a short one, where
`rateDelta = shockedRate - currentRate`. -/
noncomputable def calculateUnhedgedPnL (trades : List FXTrade) (currentRate shockedRate : ℝ) : ℝ :=
  trades.foldl
    (fun totalPnL trade =>
      totalPnL +
        (if trade.direction = FXDirection.long then
          trade.notionalUSD * (shockedRate - currentRate)
        else
          -trade.notionalUSD * (shockedRate - currentRate)))
    0

/-- `calculateHedgeCost(notionalUSD, forwardRate, spotRate, hedgeRatio)`:
`notionalUSD * hedgeRatio * (forwardRate - spotRate)`. -/
noncomputable def calculateHedgeCost (notionalUSD forwardRate spotRate hedgeRatio : ℝ) : ℝ :=
  notionalUSD * hedgeRatio * (forwardRate - spotRate)

/-- C7: the Rate Shock Model is a no-op both for a zero shock (for every
spot rate and time fraction) and for a zero time fraction (for every spot
rate and shock size). -/
theorem spec_C7_shock_noop :
    (∀ spot t : ℝ, calculateShockedFXRate spot 0 t = spot) ∧
    (∀ spot bps : ℝ, calculateShockedFXRate spot bps 0 = spot) := by
  constructor
  · intro spot t
    simp [calculateShockedFXRate]
  · intro spot bps
    simp [calculateShockedFXRate]

/-- C10: the P&L Calculator returns exactly 0 on the empty trade list,
for every base and comparison rate. -/
theorem spec_C10_pnl_empty (currentRate shockedRate : ℝ) :
    calculateUnhedgedPnL [] currentRate shockedRate = 0 := rfl

/-- Folding the P&L accumulator from an arbitrary start value shifts the
result by that start value. -/
lemma pnl_foldl_shift (f : FXTrade → ℝ) (l : List FXTrade) (a : ℝ) :
    l.foldl (fun acc t => acc + f t) a = a + l.foldl (fun acc t => acc + f t) 0 := by
  induction l generalizing a with
  | nil => simp
  | cons t l ih =>
    simp only [List.foldl_cons]
    rw [ih (a + f t), ih (0 + f t)]
    ring

/-- C6: the P&L Calculator is additive over trade lists: the P&L of a
concatenation of two books is the sum of the P&Ls of the two books, for
every base and comparison rate. -/
theorem spec_C6_pnl_additive (trades1 trades2 : List FXTrade) (currentRate shockedRate : ℝ) :
    calculateUnhedgedPnL (trades1 ++ trades2) currentRate shockedRate =
      calculateUnhedgedPnL trades1 currentRate shockedRate +
        calculateUnhedgedPnL trades2 currentRate shockedRate := by
  unfold calculateUnhedgedPnL
  rw [List.foldl_append, pnl_foldl_shift]

/-- `calculateOptimalHedgeRatio(totalExposure, expectedVolatility, hedgeCost, riskAversion)`
under the exact-real reading (where Lean's convention gives `x / 0 = 0`):
`costPenalty = |hedgeCost| / totalExposure`,
`volatilityBenefit = expectedVolatility * riskAversion`,
result `= max 0 (min 1 (volatilityBenefit / (volatilityBenefit + costPenalty)))`.
The JavaScript special-value behaviour of the same function (NaN from
`0 / 0`) is captured by `calculateOptimalHedgeRatioJS` below. -/
noncomputable def calculateOptimalHedgeRatio (totalExposure expectedVolatility hedgeCost riskAversion : ℝ) : ℝ :=
  max 0 (min 1 (expectedVolatility * riskAversion /
    (expectedVolatility * riskAversion + |hedgeCost| / totalExposure)))

/-- A JavaScript number that may be NaN or an infinity; `num x` is a
finite value, `inf true` is positive infinity, `inf false` negative
infinity. -/
inductive JSNum where
  | nan : JSNum
  | inf : Bool → JSNum
  | num : ℝ → JSNum

/-- IEEE-754 addition on `JSNum` (exact in the finite case). -/
noncomputable def jsAdd : JSNum → JSNum → JSNum
  | JSNum.nan, _ => JSNum.nan
  | _, JSNum.nan => JSNum.nan
  | JSNum.inf p, JSNum.inf q => if p = q then JSNum.inf p else JSNum.nan
  | JSNum.inf p, JSNum.num _ => JSNum.inf p
  | JSNum.num _, JSNum.inf q => JSNum.inf q
  | JSNum.num a, JSNum.num b => JSNum.num (a + b)

/-- IEEE-754 division on `JSNum` (exact in the finite case): `0 / 0` is
NaN, `a / 0` for nonzero `a` is a signed infinity, a finite value divided
by an infinity is 0. -/
noncomputable def jsDiv : JSNum → JSNum → JSNum
  | JSNum.nan, _ => JSNum.nan
  | _, JSNum.nan => JSNum.nan
  | JSNum.inf _, JSNum.inf _ => JSNum.nan
  | JSNum.inf p, JSNum.num b => if 0 ≤ b then JSNum.inf p else JSNum.inf !p
  | JSNum.num _, JSNum.inf _ => JSNum.num 0
  | JSNum.num a, JSNum.num b =>
      if b = 0 then
        if a = 0 then JSNum.nan
        else if 0 < a then JSNum.inf true else JSNum.inf false
      else JSNum.num (a / b)

/-- `Math.min` on `JSNum`: NaN if either argument is NaN. -/
noncomputable def jsMin : JSNum → JSNum → JSNum
  | JSNum.nan, _ => JSNum.nan
  | _, JSNum.nan => JSNum.nan
  | JSNum.inf true, y => y
  | JSNum.inf false, _ => JSNum.inf false
  | x, JSNum.inf true => x
  | _, JSNum.inf false => JSNum.inf false
  | JSNum.num a, JSNum.num b => JSNum.num (min a b)

/-- `Math.max` on `JSNum`: NaN if either argument is NaN. -/
noncomputable def jsMax : JSNum → JSNum → JSNum
  | JSNum.nan, _ => JSNum.nan
  | _, JSNum.nan => JSNum.nan
  | JSNum.inf true, _ => JSNum.inf true
  | JSNum.inf false, y => y
  | _, JSNum.inf true => JSNum.inf true
  | x, JSNum.inf false => x
  | JSNum.num a, JSNum.num b => JSNum.num (max a b)

/-- `calculateOptimalHedgeRatio` with the JavaScript special-value
semantics of its divisions, for finite real arguments:
`Math.max(0, Math.min(1, volatilityBenefit / (volatilityBenefit + costPenalty)))`
with `costPenalty = Math.abs(hedgeCost) / totalExposure` and
`volatilityBenefit = expectedVolatility * riskAversion`. -/
noncomputable def calculateOptimalHedgeRatioJS (totalExposure expectedVolatility hedgeCost riskAversion : ℝ) : JSNum :=
  jsMax (JSNum.num 0)
    (jsMin (JSNum.num 1)
      (jsDiv (JSNum.num (expectedVolatility * riskAversion))
        (jsAdd (JSNum.num (expectedVolatility * riskAversion))
          (jsDiv (JSNum.num |hedgeCost|) (JSNum.num totalExposure)))))

/-- The z-score lookup line of `calculateVaR`:
`confidenceLevel === 0.95 ? 1.645 : 2.33`. -/
noncomputable def zScoreFor (confidenceLevel : ℝ) : ℝ :=
  if confidenceLevel = 0.95 then 1.645 else 2.33

/-- `calculateVaR(totalExposure, volatility, confidenceLevel, timeHorizon)`
(defaults at the call sites: `confidenceLevel = 0.95`, `timeHorizon = 1`):
`totalExposure * scaledVolatility * zScore` with
`scaledVolatility = volatility * Math.sqrt(timeHorizon / 252)`.
This is the exact-real reading (so `Real.sqrt` of a negative argument is
the junk value 0); `calculateVaRNum` below records the JavaScript NaN
behaviour of `Math.sqrt` on negative arguments. -/
noncomputable def calculateVaR (totalExposure volatility confidenceLevel timeHorizon : ℝ) : ℝ :=
  totalExposure * (volatility * Real.sqrt (timeHorizon / 252)) * zScoreFor confidenceLevel

/-- `calculateVaR` with the JavaScript semantics of `Math.sqrt`: for a
negative argument `Math.sqrt` returns NaN, which propagates through the
multiplications, so the whole result is NaN; otherwise the function
agrees with the exact-real reading `calculateVaR`. -/
noncomputable def calculateVaRNum (totalExposure volatility confidenceLevel timeHorizon : ℝ) : JSNum :=
  if timeHorizon / 252 < 0 then JSNum.nan
  else JSNum.num (totalExposure * (volatility * Real.sqrt (timeHorizon / 252)) * zScoreFor confidenceLevel)

/-- `calculateRiskMetrics(trades, scenario)`, the Risk Metrics Aggregator:
total exposure is the sum of notionals, unhedged P&L compares the current
and shocked rates, the forward rate applies the shock at a fixed time
fraction 0.25, the hedge cost uses the default hedge ratio 1, the
optimizer uses the default risk aversion 0.5, and VaR uses the default
confidence 0.95 and horizon 1. -/
noncomputable def calculateRiskMetrics (trades : List FXTrade) (scenario : RiskScenario) : RiskMetrics :=
  let totalExposureUSD := trades.foldl (fun sum trade => sum + trade.notionalUSD) 0
  let unhedgedPnL := calculateUnhedgedPnL trades scenario.currentFXRate scenario.shockedFXRate
  let forwardRate := calculateShockedFXRate scenario.currentFXRate scenario.interestRateShock 0.25
  let hedgeCost := calculateHedgeCost totalExposureUSD forwardRate scenario.currentFXRate 1
  let optimalHedgeRatio := calculateOptimalHedgeRatio totalExposureUSD scenario.volatility hedgeCost 0.5
  let hedgedPnL := unhedgedPnL * (1 - optimalHedgeRatio) - hedgeCost * optimalHedgeRatio
  let valueAtRisk := calculateVaR totalExposureUSD scenario.volatility 0.95 1
  ⟨totalExposureUSD, unhedgedPnL, unhedgedPnL, hedgedPnL, optimalHedgeRatio, hedgeCost, valueAtRisk⟩

/-- One `{ fxRate, pnl, hedgedPnl }` entry of the sensitivity curve. -/
structure SensitivityPoint where
  fxRate : ℝ
  pnl : ℝ
  hedgedPnl : ℝ

/-- `generatePnLSensitivity(trades, baseRate, shockRange)`: a loop over
`i = 0 .. steps` with the hardcoded `steps = 50`, pushing
`rate = baseRate - shockRange + (2 * shockRange * i) / steps`, the P&L at
that rate divided by 1,000,000, and `pnl * 0.3 / 1,000,000` (the fixed
illustrative 70% hedge assumption). -/
noncomputable def generatePnLSensitivity (trades : List FXTrade) (baseRate shockRange : ℝ) : List SensitivityPoint :=
  (List.range 51).map fun (i : ℕ) =>
    ⟨baseRate - shockRange + 2 * shockRange * (i : ℝ) / 50,
      calculateUnhedgedPnL trades baseRate (baseRate - shockRange + 2 * shockRange * (i : ℝ) / 50) / 1000000,
      calculateUnhedgedPnL trades baseRate (baseRate - shockRange + 2 * shockRange * (i : ℝ) / 50) * 0.3 / 1000000⟩

/-- The decimal digit character for `d`, `0 ≤ d ≤ 9`: character code `48 + d`. -/
def digitChar (d : ℕ) : Char := Char.ofNat (48 + d)

/-- Decimal rendering of a natural number, as produced by JavaScript's
`Number.prototype.toString()` on a non-negative integer: most significant
digit first, no leading zeros. -/
def natToDecimal (n : ℕ) : List Char :=
  if _h : n < 10 then [digitChar n]
  else natToDecimal (n / 10) ++ [digitChar (n % 10)]
decreasing_by exact Nat.div_lt_self (by omega) (by omega)

/-- JavaScript's `padStart(3, '0')` on a list of characters. -/
def padTo3 (l : List Char) : List Char :=
  List.replicate (3 - l.length) '0' ++ l

/-- The trade id `FX-${i.toString().padStart(3, '0')}` built by the
Trade Generator for generation index `i`. -/
def mkTradeId (i : ℕ) : String :=
  "FX-" ++ String.mk (padTo3 (natToDecimal i))

/-- Reads a decimal digit string back into a natural number (used only to
prove that trade ids are injective in the generation index). -/
def parseDec (l : List Char) : ℕ :=
  l.foldl (fun a c => 10 * a + (c.toNat - 48)) 0

/-- Recovers the generation index from a trade id by dropping the `FX-`
prefix and parsing the digits. -/
def decodeId (s : String) : ℕ := parseDec (s.data.drop 3)

/-- `generateFXTrades(count)` with the randomness and the clock made
injectable, as the spec's design notes require: `random k` is the result
of the k-th `Math.random()` call (the source draws four per trade, in the
order notional, direction, days-to-maturity, trade date) and `now` is
`Date.now()`.  Per trade `i`:
`baseNotional = 50000 + random * 2000000`,
`direction = random > 0.5 ? long : short`,
`daysToMaturity = Math.floor(random * 365) + 30`,
`tradeDate = now - random * 90 * 24 * 60 * 60 * 1000`,
`maturityDate = now + daysToMaturity * 24 * 60 * 60 * 1000`. -/
noncomputable def generateFXTrades (random : ℕ → ℝ) (now : ℝ) (count : ℕ) : List FXTrade :=
  (List.range count).map fun (i : ℕ) =>
    ⟨mkTradeId i,
      50000 + random (4 * i) * 2000000,
      now - random (4 * i + 3) * (90 * 24 * 60 * 60 * 1000),
      now + ((⌊random (4 * i + 2) * 365⌋ + 30 : ℤ) : ℝ) * (24 * 60 * 60 * 1000),
      if random (4 * i + 1) > 0.5 then FXDirection.long else FXDirection.short⟩


lemma jsAdd_num_num (a b : ℝ) : jsAdd (JSNum.num a) (JSNum.num b) = JSNum.num (a + b) := rfl

lemma jsAdd_num_nan (a : ℝ) : jsAdd (JSNum.num a) JSNum.nan = JSNum.nan := rfl

lemma jsAdd_num_inf (a : ℝ) (p : Bool) : jsAdd (JSNum.num a) (JSNum.inf p) = JSNum.inf p := rfl

lemma jsDiv_num_nan (a : ℝ) : jsDiv (JSNum.num a) JSNum.nan = JSNum.nan := rfl

lemma jsDiv_num_inf (a : ℝ) (p : Bool) : jsDiv (JSNum.num a) (JSNum.inf p) = JSNum.num 0 := rfl

lemma jsDiv_num_num_of_ne (a b : ℝ) (h : b ≠ 0) :
    jsDiv (JSNum.num a) (JSNum.num b) = JSNum.num (a / b) := by
  show (if b = 0 then
      if a = 0 then JSNum.nan
      else if 0 < a then JSNum.inf true else JSNum.inf false
    else JSNum.num (a / b)) = JSNum.num (a / b)
  rw [if_neg h]

lemma jsDiv_zero_zero : jsDiv (JSNum.num 0) (JSNum.num 0) = JSNum.nan := by
  show (if (0 : ℝ) = 0 then
      if (0 : ℝ) = 0 then JSNum.nan
      else if 0 < (0 : ℝ) then JSNum.inf true else JSNum.inf false
    else JSNum.num (0 / 0)) = JSNum.nan
  rw [if_pos rfl, if_pos rfl]

lemma jsDiv_num_zero_of_pos (a : ℝ) (h : 0 < a) :
    jsDiv (JSNum.num a) (JSNum.num 0) = JSNum.inf true := by
  show (if (0 : ℝ) = 0 then
      if a = 0 then JSNum.nan
      else if 0 < a then JSNum.inf true else JSNum.inf false
    else JSNum.num (a / 0)) = JSNum.inf true
  rw [if_pos rfl, if_neg (ne_of_gt h), if_pos h]

lemma jsMin_num_nan (a : ℝ) : jsMin (JSNum.num a) JSNum.nan = JSNum.nan := rfl

lemma jsMin_num_posinf (a : ℝ) : jsMin (JSNum.num a) (JSNum.inf true) = JSNum.num a := rfl

lemma jsMin_num_neginf (a : ℝ) : jsMin (JSNum.num a) (JSNum.inf false) = JSNum.inf false := rfl

lemma jsMin_num_num (a b : ℝ) : jsMin (JSNum.num a) (JSNum.num b) = JSNum.num (min a b) := rfl

lemma jsMax_num_nan (a : ℝ) : jsMax (JSNum.num a) JSNum.nan = JSNum.nan := rfl

lemma jsMax_num_neginf (a : ℝ) : jsMax (JSNum.num a) (JSNum.inf false) = JSNum.num a := rfl

lemma jsMax_num_num (a b : ℝ) : jsMax (JSNum.num a) (JSNum.num b) = JSNum.num (max a b) := rfl

/-- C1: the spec's §7 policy requires `costPenalty = 0` when
`totalExposureUSD = 0`, so that the empty book yields a defined
`optimalHedgeRatio`.  The code does not implement this: on the empty
trade list the aggregator's total exposure and hedge cost are both 0, and
the optimizer then computes `costPenalty = Math.abs(0) / 0 = 0 / 0`,
which in JavaScript is NaN and propagates to the returned ratio — an
undefined value, not the policy's defined numeric result. -/
theorem spec_C1_empty_book_nan (scenario : RiskScenario) :
    (calculateRiskMetrics [] scenario).totalExposureUSD = 0 ∧
    (calculateRiskMetrics [] scenario).hedgeCost = 0 ∧
    calculateOptimalHedgeRatioJS 0 scenario.volatility 0 0.5 = JSNum.nan := by
  refine ⟨rfl, ?_, ?_⟩
  · show calculateHedgeCost 0 _ _ 1 = 0
    simp [calculateHedgeCost]
  · unfold calculateOptimalHedgeRatioJS
    rw [abs_zero, jsDiv_zero_zero, jsAdd_num_nan, jsDiv_num_nan, jsMin_num_nan, jsMax_num_nan]

/-- C2 fails as stated: at the finite real inputs `totalExposure = 1`,
`expectedVolatility = 0`, `hedgeCost = 0`, `riskAversion = 0.5` the
optimizer computes `volatilityBenefit / (volatilityBenefit + costPenalty)
= 0 / 0 = NaN`, so the result is not a number in [0, 1]. -/
theorem spec_C2_counterexample :
    ¬ ∃ q : ℝ, calculateOptimalHedgeRatioJS 1 0 0 0.5 = JSNum.num q ∧ 0 ≤ q ∧ q ≤ 1 := by
  have h : calculateOptimalHedgeRatioJS (1 : ℝ) 0 0 0.5 = JSNum.nan := by
    unfold calculateOptimalHedgeRatioJS
    rw [abs_zero, jsDiv_num_num_of_ne 0 1 one_ne_zero, zero_div, zero_mul,
      jsAdd_num_num, add_zero, jsDiv_zero_zero, jsMin_num_nan, jsMax_num_nan]
  rintro ⟨q, hq, _⟩
  rw [h] at hq
  exact JSNum.noConfusion hq

/-- C2 (amended): for all finite real inputs such that either the hedge
cost is nonzero, or the total exposure and the volatility-benefit product
are both nonzero, the optimizer's `0/0` degenerate case is avoided and
the result is a finite number in [0, 1]. -/
theorem spec_C2_optimal_ratio_range (totalExposure expectedVolatility hedgeCost riskAversion : ℝ)
    (hcond : hedgeCost ≠ 0 ∨ (totalExposure ≠ 0 ∧ expectedVolatility * riskAversion ≠ 0)) :
    ∃ q : ℝ, calculateOptimalHedgeRatioJS totalExposure expectedVolatility hedgeCost riskAversion =
      JSNum.num q ∧ 0 ≤ q ∧ q ≤ 1 := by
  unfold calculateOptimalHedgeRatioJS
  set v := expectedVolatility * riskAversion with hv
  by_cases htE : totalExposure = 0
  · have hh : hedgeCost ≠ 0 := by
      rcases hcond with hh | ⟨h1, _⟩
      · exact hh
      · exact absurd htE h1
    rw [htE, jsDiv_num_zero_of_pos _ (abs_pos.mpr hh), jsAdd_num_inf, jsDiv_num_inf,
      jsMin_num_num, jsMax_num_num]
    refine ⟨max 0 (min 1 0), rfl, le_max_left _ _, ?_⟩
    rw [min_eq_right zero_le_one, max_self]
    exact zero_le_one
  · rw [jsDiv_num_num_of_ne _ _ htE, jsAdd_num_num]
    by_cases hd : v + |hedgeCost| / totalExposure = 0
    · have hv0 : v ≠ 0 := by
        intro hv0
        have hc0 : |hedgeCost| / totalExposure = 0 := by
          rw [hv0, zero_add] at hd
          exact hd
        have habs0 : |hedgeCost| = 0 := by
          rcases div_eq_zero_iff.mp hc0 with h0 | h0
          · exact h0
          · exact absurd h0 htE
        have hh0 : hedgeCost = 0 := abs_eq_zero.mp habs0
        rcases hcond with hh | ⟨_, hvra⟩
        · exact hh hh0
        · exact hvra (hv ▸ hv0)
      rw [hd]
      rcases lt_or_gt_of_ne hv0 with hneg | hpos
      · have : jsDiv (JSNum.num v) (JSNum.num 0) = JSNum.inf false := by
          show (if (0 : ℝ) = 0 then
              if v = 0 then JSNum.nan
              else if 0 < v then JSNum.inf true else JSNum.inf false
            else JSNum.num (v / 0)) = JSNum.inf false
          rw [if_pos rfl, if_neg hv0, if_neg (not_lt.mpr hneg.le)]
        rw [this, jsMin_num_neginf, jsMax_num_neginf]
        exact ⟨0, rfl, le_refl 0, zero_le_one⟩
      · rw [jsDiv_num_zero_of_pos _ hpos, jsMin_num_posinf, jsMax_num_num]
        refine ⟨max 0 1, rfl, le_max_left _ _, ?_⟩
        rw [max_eq_right zero_le_one]
    · rw [jsDiv_num_num_of_ne _ _ hd, jsMin_num_num, jsMax_num_num]
      refine ⟨max 0 (min 1 (v / (v + |hedgeCost| / totalExposure))), rfl, le_max_left _ _, ?_⟩
      exact max_le zero_le_one (min_le_left _ _)

/-- Witness for C2 (amended) at `totalExposure = 1`,
`expectedVolatility = 1`, `hedgeCost = 1`, `riskAversion = 1`. -/
theorem spec_C2_optimal_ratio_range_witness :
    ((1 : ℝ) ≠ 0 ∨ ((1 : ℝ) ≠ 0 ∧ (1 : ℝ) * 1 ≠ 0)) ∧
    ∃ q : ℝ, calculateOptimalHedgeRatioJS 1 1 1 1 = JSNum.num q ∧ 0 ≤ q ∧ q ≤ 1 :=
  ⟨Or.inl one_ne_zero, spec_C2_optimal_ratio_range 1 1 1 1 (Or.inl one_ne_zero)⟩

/-- C3: the VaR z-score is exactly 1.645 at confidence level 0.95 and
exactly 2.33 at any other confidence level, and for any fixed positive
exposure, volatility and horizon the 0.95-to-0.99 VaR ratio is exactly
1.645 / 2.33. -/
theorem spec_C3_var_zscore (X V T c : ℝ) (hX : 0 < X) (hV : 0 < V) (hT : 0 < T)
    (hc : c ≠ 0.95) :
    zScoreFor 0.95 = 1.645 ∧ zScoreFor c = 2.33 ∧
      calculateVaR X V 0.95 T / calculateVaR X V 0.99 T = 1.645 / 2.33 := by
  refine ⟨if_pos rfl, if_neg hc, ?_⟩
  unfold calculateVaR zScoreFor
  rw [if_pos rfl, if_neg (by norm_num : (0.99 : ℝ) ≠ 0.95)]
  have hs : 0 < Real.sqrt (T / 252) := Real.sqrt_pos.mpr (div_pos hT (by norm_num))
  have hA : X * (V * Real.sqrt (T / 252)) ≠ 0 := ne_of_gt (mul_pos hX (mul_pos hV hs))
  exact mul_div_mul_left 1.645 2.33 hA

/-- Witness for C3 at `X = V = T = 1`, `c = 0.99`. -/
theorem spec_C3_var_zscore_witness :
    ((0 : ℝ) < 1) ∧ ((0.99 : ℝ) ≠ 0.95) ∧
    (zScoreFor 0.95 = 1.645 ∧ zScoreFor 0.99 = 2.33 ∧
      calculateVaR 1 1 0.95 1 / calculateVaR 1 1 0.99 1 = 1.645 / 2.33) :=
  ⟨one_pos, by norm_num, spec_C3_var_zscore 1 1 1 0.99 one_pos one_pos one_pos (by norm_num)⟩

/-- C4: for every trade list and scenario, the aggregator's `totalPnL`
equals its `unhedgedPnL`, its `hedgedPnL` is
`unhedgedPnL * (1 - optimalHedgeRatio) - hedgeCost * optimalHedgeRatio`,
and its `hedgeCost` is the Hedge Cost Calculator at hedge ratio 1 against
the forward rate from the Rate Shock Model at time fraction 0.25. -/
theorem spec_C4_aggregator_fields (trades : List FXTrade) (scenario : RiskScenario) :
    (calculateRiskMetrics trades scenario).totalPnL =
      (calculateRiskMetrics trades scenario).unhedgedPnL ∧
    (calculateRiskMetrics trades scenario).hedgedPnL =
      (calculateRiskMetrics trades scenario).unhedgedPnL *
          (1 - (calculateRiskMetrics trades scenario).optimalHedgeRatio) -
        (calculateRiskMetrics trades scenario).hedgeCost *
          (calculateRiskMetrics trades scenario).optimalHedgeRatio ∧
    (calculateRiskMetrics trades scenario).hedgeCost =
      calculateHedgeCost (calculateRiskMetrics trades scenario).totalExposureUSD
        (calculateShockedFXRate scenario.currentFXRate scenario.interestRateShock 0.25)
        scenario.currentFXRate 1 :=
  ⟨rfl, rfl, rfl⟩

/-- C9 fails as stated: with `timeHorizonDays` unconstrained, the inputs
`totalExposure = 1`, `volatility = 1`, `confidenceLevel = 0.95`,
`timeHorizon = -1` make `Math.sqrt(timeHorizon / 252)` NaN in
JavaScript, so the result is NaN, not a non-negative real. -/
theorem spec_C9_counterexample :
    ¬ ∃ w : ℝ, calculateVaRNum 1 1 0.95 (-1) = JSNum.num w ∧ 0 ≤ w := by
  rintro ⟨w, hw, _⟩
  unfold calculateVaRNum at hw
  rw [if_pos (by norm_num : (-1 : ℝ) / 252 < 0)] at hw
  exact JSNum.noConfusion hw

/-- C9 (amended): for every non-negative exposure, volatility and time
horizon (confidence level unconstrained), the VaR calculator returns the
finite value of the exact-real formula, and that value is non-negative. -/
theorem spec_C9_var_nonneg (X V c T : ℝ) (hX : 0 ≤ X) (hV : 0 ≤ V) (hT : 0 ≤ T) :
    calculateVaRNum X V c T = JSNum.num (calculateVaR X V c T) ∧
      0 ≤ calculateVaR X V c T := by
  constructor
  · unfold calculateVaRNum calculateVaR
    rw [if_neg (not_lt.mpr (div_nonneg hT (by norm_num)))]
  · have hz : 0 ≤ zScoreFor c := by
      unfold zScoreFor
      split
      · norm_num
      · norm_num
    exact mul_nonneg (mul_nonneg hX (mul_nonneg hV (Real.sqrt_nonneg _))) hz

/-- Witness for C9 (amended) at `X = V = 1`, `c = 0.95`, `T = 1`. -/
theorem spec_C9_var_nonneg_witness :
    ((0 : ℝ) ≤ 1) ∧
    (calculateVaRNum 1 1 0.95 1 = JSNum.num (calculateVaR 1 1 0.95 1) ∧
      0 ≤ calculateVaR 1 1 0.95 1) :=
  ⟨zero_le_one, spec_C9_var_nonneg 1 1 0.95 1 zero_le_one zero_le_one zero_le_one⟩

/-- When the comparison rate equals the base rate, every trade's
contribution vanishes, so the P&L is 0. -/
lemma pnl_rate_self (trades : List FXTrade) (r : ℝ) :
    calculateUnhedgedPnL trades r r = 0 := by
  unfold calculateUnhedgedPnL
  induction trades with
  | nil => rfl
  | cons t l ih =>
    rw [List.foldl_cons, pnl_foldl_shift, ih]
    simp

/-- The i-th entry of the sensitivity curve, written out. -/
lemma generatePnLSensitivity_get (trades : List FXTrade) (b s : ℝ) (i : ℕ)
    (hi : i < (generatePnLSensitivity trades b s).length) :
    (generatePnLSensitivity trades b s).get ⟨i, hi⟩ =
      ⟨b - s + 2 * s * (i : ℝ) / 50,
        calculateUnhedgedPnL trades b (b - s + 2 * s * (i : ℝ) / 50) / 1000000,
        calculateUnhedgedPnL trades b (b - s + 2 * s * (i : ℝ) / 50) * 0.3 / 1000000⟩ := by
  simp only [generatePnLSensitivity, List.get_eq_getElem, List.getElem_map, List.getElem_range]

/-- C5: for every trade list, positive base rate and positive shock
range, the sensitivity curve has exactly 51 entries (the source hardcodes
`steps = 50`, the spec's default step count), its `fxRate` values are
strictly increasing and symmetric around the base rate, and the middle
entry (index 25) has `fxRate` equal to the base rate and `pnl` equal
to 0. -/
theorem spec_C5_sensitivity_shape (trades : List FXTrade) (b s : ℝ) (hb : 0 < b) (hs : 0 < s) :
    (generatePnLSensitivity trades b s).length = 51 ∧
    (∀ i j (hi : i < (generatePnLSensitivity trades b s).length)
        (hj : j < (generatePnLSensitivity trades b s).length), i < j →
      ((generatePnLSensitivity trades b s).get ⟨i, hi⟩).fxRate <
        ((generatePnLSensitivity trades b s).get ⟨j, hj⟩).fxRate) ∧
    (∀ i (hi : i < (generatePnLSensitivity trades b s).length)
        (hi2 : 50 - i < (generatePnLSensitivity trades b s).length),
      ((generatePnLSensitivity trades b s).get ⟨i, hi⟩).fxRate +
        ((generatePnLSensitivity trades b s).get ⟨50 - i, hi2⟩).fxRate = 2 * b) ∧
    (∀ h25 : 25 < (generatePnLSensitivity trades b s).length,
      ((generatePnLSensitivity trades b s).get ⟨25, h25⟩).fxRate = b ∧
        ((generatePnLSensitivity trades b s).get ⟨25, h25⟩).pnl = 0) := by
  have hlen : (generatePnLSensitivity trades b s).length = 51 := by
    simp only [generatePnLSensitivity, List.length_map, List.length_range]
  refine ⟨hlen, ?_, ?_, ?_⟩
  · intro i j hi hj hij
    rw [generatePnLSensitivity_get, generatePnLSensitivity_get]
    have hij' : (i : ℝ) < (j : ℝ) := Nat.cast_lt.mpr hij
    have h2 : 2 * s * (i : ℝ) < 2 * s * (j : ℝ) := by nlinarith
    have h3 : 2 * s * (i : ℝ) / 50 < 2 * s * (j : ℝ) / 50 :=
      div_lt_div_of_pos_right h2 (by norm_num)
    linarith
  · intro i hi hi2
    rw [generatePnLSensitivity_get, generatePnLSensitivity_get]
    have hle : i ≤ 50 := by
      rw [hlen] at hi
      omega
    rw [Nat.cast_sub hle]
    push_cast
    ring
  · intro h25
    rw [generatePnLSensitivity_get]
    have hrate : b - s + 2 * s * ((25 : ℕ) : ℝ) / 50 = b := by
      push_cast
      ring
    refine ⟨hrate, ?_⟩
    show calculateUnhedgedPnL trades b (b - s + 2 * s * ((25 : ℕ) : ℝ) / 50) / 1000000 = 0
    rw [hrate, pnl_rate_self]
    norm_num

/-- Witness for C5 at the empty trade list, `b = 1`, `s = 1`. -/
theorem spec_C5_sensitivity_shape_witness :
    ((0 : ℝ) < 1) ∧
    ((generatePnLSensitivity [] 1 1).length = 51 ∧
    (∀ i j (hi : i < (generatePnLSensitivity [] 1 1).length)
        (hj : j < (generatePnLSensitivity [] 1 1).length), i < j →
      ((generatePnLSensitivity [] 1 1).get ⟨i, hi⟩).fxRate <
        ((generatePnLSensitivity [] 1 1).get ⟨j, hj⟩).fxRate) ∧
    (∀ i (hi : i < (generatePnLSensitivity [] 1 1).length)
        (hi2 : 50 - i < (generatePnLSensitivity [] 1 1).length),
      ((generatePnLSensitivity [] 1 1).get ⟨i, hi⟩).fxRate +
        ((generatePnLSensitivity [] 1 1).get ⟨50 - i, hi2⟩).fxRate = 2 * 1) ∧
    (∀ h25 : 25 < (generatePnLSensitivity [] 1 1).length,
      ((generatePnLSensitivity [] 1 1).get ⟨25, h25⟩).fxRate = 1 ∧
        ((generatePnLSensitivity [] 1 1).get ⟨25, h25⟩).pnl = 0)) :=
  ⟨one_pos, spec_C5_sensitivity_shape [] 1 1 one_pos one_pos⟩

/-- Appending one digit multiplies the parsed value by 10 and adds the
digit value. -/
lemma parseDec_append_digit (xs : List Char) (c : Char) :
    parseDec (xs ++ [c]) = 10 * parseDec xs + (c.toNat - 48) := by
  unfold parseDec
  rw [List.foldl_append]
  rfl

/-- Leading zero characters do not change the parsed value. -/
lemma parseDec_replicate_zero (k : ℕ) (l : List Char) :
    parseDec (List.replicate k '0' ++ l) = parseDec l := by
  induction k with
  | zero => rfl
  | succ k ih =>
    rw [List.replicate_succ, List.cons_append]
    show parseDec (List.replicate k '0' ++ l) = parseDec l
    exact ih

/-- Parsing inverts decimal rendering. -/
lemma parseDec_natToDecimal (n : ℕ) : parseDec (natToDecimal n) = n := by
  induction n using Nat.strong_induction_on with
  | _ n ih =>
    rw [natToDecimal]
    split
    · rename_i h
      interval_cases n <;> rfl
    · rename_i h
      rw [parseDec_append_digit, ih (n / 10) (Nat.div_lt_self (by omega) (by omega))]
      have hd : (digitChar (n % 10)).toNat - 48 = n % 10 := by
        have h10 : n % 10 < 10 := Nat.mod_lt _ (by omega)
        have hall : ∀ m, m < 10 → (digitChar m).toNat - 48 = m := by
          intro m hm
          interval_cases m <;> rfl
        exact hall _ h10
      rw [hd]
      omega

/-- Decoding a generated trade id recovers the generation index. -/
lemma decodeId_mkTradeId (i : ℕ) : decodeId (mkTradeId i) = i := by
  have h : decodeId (mkTradeId i) = parseDec (padTo3 (natToDecimal i)) := rfl
  rw [h]
  unfold padTo3
  rw [parseDec_replicate_zero, parseDec_natToDecimal]

/-- Trade ids are injective in the generation index. -/
lemma mkTradeId_injective (i j : ℕ) (h : mkTradeId i = mkTradeId j) : i = j := by
  have h2 := congrArg decodeId h
  rwa [decodeId_mkTradeId, decodeId_mkTradeId] at h2

/-- The i-th generated trade, written out. -/
lemma generateFXTrades_get (random : ℕ → ℝ) (now : ℝ) (count i : ℕ)
    (hi : i < (generateFXTrades random now count).length) :
    (generateFXTrades random now count).get ⟨i, hi⟩ =
      ⟨mkTradeId i,
        50000 + random (4 * i) * 2000000,
        now - random (4 * i + 3) * (90 * 24 * 60 * 60 * 1000),
        now + ((⌊random (4 * i + 2) * 365⌋ + 30 : ℤ) : ℝ) * (24 * 60 * 60 * 1000),
        if random (4 * i + 1) > 0.5 then FXDirection.long else FXDirection.short⟩ := by
  simp only [generateFXTrades, List.get_eq_getElem, List.getElem_map, List.getElem_range]

/-- C8: for every positive count and every injectable random source whose
draws lie in [0, 1) (and any clock value), the generator produces exactly
`count` trades, with pairwise distinct ids, notionals in
[50000, 2050000), and maturity date strictly after trade date. -/
theorem spec_C8_generator (random : ℕ → ℝ) (now : ℝ) (count : ℕ) (hcount : 0 < count)
    (hr : ∀ k, 0 ≤ random k ∧ random k < 1) :
    (generateFXTrades random now count).length = count ∧
    (∀ i j (hi : i < (generateFXTrades random now count).length)
        (hj : j < (generateFXTrades random now count).length), i ≠ j →
      ((generateFXTrades random now count).get ⟨i, hi⟩).id ≠
        ((generateFXTrades random now count).get ⟨j, hj⟩).id) ∧
    (∀ t ∈ generateFXTrades random now count,
      50000 ≤ t.notionalUSD ∧ t.notionalUSD < 2050000 ∧ t.tradeDate < t.maturityDate) := by
  refine ⟨by simp only [generateFXTrades, List.length_map, List.length_range], ?_, ?_⟩
  · intro i j hi hj hne
    rw [generateFXTrades_get, generateFXTrades_get]
    exact fun hids => hne (mkTradeId_injective i j hids)
  · intro t ht
    simp only [generateFXTrades, List.mem_map, List.mem_range] at ht
    obtain ⟨i, _, rfl⟩ := ht
    obtain ⟨hn0, hn1⟩ := hr (4 * i)
    refine ⟨?_, ?_, ?_⟩
    · show 50000 ≤ 50000 + random (4 * i) * 2000000
      have := mul_nonneg hn0 (by norm_num : (0 : ℝ) ≤ 2000000)
      linarith
    · show 50000 + random (4 * i) * 2000000 < 2050000
      have h2 : random (4 * i) * 2000000 < 1 * 2000000 :=
        mul_lt_mul_of_pos_right hn1 (by norm_num)
      linarith
    · show now - random (4 * i + 3) * (90 * 24 * 60 * 60 * 1000) <
        now + ((⌊random (4 * i + 2) * 365⌋ + 30 : ℤ) : ℝ) * (24 * 60 * 60 * 1000)
      have h3 : (0 : ℝ) ≤ random (4 * i + 3) * (90 * 24 * 60 * 60 * 1000) :=
        mul_nonneg (hr (4 * i + 3)).1 (by norm_num)
      have hfl : (0 : ℤ) ≤ ⌊random (4 * i + 2) * 365⌋ :=
        Int.floor_nonneg.mpr (mul_nonneg (hr (4 * i + 2)).1 (by norm_num))
      have hd : (30 : ℝ) ≤ ((⌊random (4 * i + 2) * 365⌋ + 30 : ℤ) : ℝ) := by
        have h30 : (30 : ℤ) ≤ ⌊random (4 * i + 2) * 365⌋ + 30 := by omega
        exact_mod_cast h30
      have h5 : (30 : ℝ) * (24 * 60 * 60 * 1000) ≤
          ((⌊random (4 * i + 2) * 365⌋ + 30 : ℤ) : ℝ) * (24 * 60 * 60 * 1000) :=
        mul_le_mul_of_nonneg_right hd (by norm_num)
      linarith

/-- Witness for C8 with the constant random source 1/2, clock 0 and
count 1. -/
theorem spec_C8_generator_witness :
    (0 < 1) ∧ (∀ k : ℕ, 0 ≤ (fun _ : ℕ => (1 : ℝ) / 2) k ∧ (fun _ : ℕ => (1 : ℝ) / 2) k < 1) ∧
    ((generateFXTrades (fun _ : ℕ => (1 : ℝ) / 2) 0 1).length = 1 ∧
    (∀ i j (hi : i < (generateFXTrades (fun _ : ℕ => (1 : ℝ) / 2) 0 1).length)
        (hj : j < (generateFXTrades (fun _ : ℕ => (1 : ℝ) / 2) 0 1).length), i ≠ j →
      ((generateFXTrades (fun _ : ℕ => (1 : ℝ) / 2) 0 1).get ⟨i, hi⟩).id ≠
        ((generateFXTrades (fun _ : ℕ => (1 : ℝ) / 2) 0 1).get ⟨j, hj⟩).id) ∧
    (∀ t ∈ generateFXTrades (fun _ : ℕ => (1 : ℝ) / 2) 0 1,
      50000 ≤ t.notionalUSD ∧ t.notionalUSD < 2050000 ∧ t.tradeDate < t.maturityDate)) :=
  ⟨Nat.one_pos, fun _ => ⟨by norm_num, by norm_num⟩,
    spec_C8_generator (fun _ : ℕ => (1 : ℝ) / 2) 0 1 Nat.one_pos
      (fun _ => ⟨by norm_num, by norm_num⟩)⟩
